import Mathlib

/-!
Verification of the `syslogdiag/log.py` logging facility: attribute-tagged
loggers, durable log entries with flat-mapping (de)serialization, the
persisted log-id counter, console routing, critical-severity escalation and
the time/attribute-filtered query service.

Python dictionaries are modelled as insertion-ordered association lists with
unique keys (`Dict`); mutable state (the mongo collection, the heap of
attribute dictionaries) is passed explicitly.
-/

/-- A value stored in a flat mapping: user label values and reserved-field
values are strings or integers; `gt n` models the mongo query-operator
document standing for the predicate "field value strictly greater than `n`". -/
inductive Value where
  | str : String → Value
  | int : Int → Value
  | gt : Int → Value
deriving DecidableEq, Repr

/-- A Python dict: insertion-ordered association list, keys unique. -/
abbrev Dict := List (String × Value)

/-- Python `d[key]` / `d.get(key)`: first (only) binding for the key. -/
def Dict.lookup : Dict → String → Option Value
  | [], _ => none
  | (k, v) :: rest, key => if k = key then some v else Dict.lookup rest key

/-- Python `d[key] = v`: replace the value in place if the key is present,
otherwise append the binding at the end (dict insertion order). -/
def Dict.insert : Dict → String → Value → Dict
  | [], key, v => [(key, v)]
  | (k, v') :: rest, key, v =>
    if k = key then (k, v) :: rest else (k, v') :: Dict.insert rest key v

/-- Remove the binding for a key (helper for `pop`). -/
def Dict.erase : Dict → String → Dict
  | [], _ => []
  | (k, v') :: rest, key =>
    if k = key then rest else (k, v') :: Dict.erase rest key

/-- Python `d.pop(key)` with no default: `none` models the `KeyError`
raised when the key is absent. -/
def Dict.pop (d : Dict) (key : String) : Option (Value × Dict) :=
  match d.lookup key with
  | none => none
  | some v => some (v, d.erase key)

/-- `syscore.dateutils` datetimes. Modelled from the spec: a point in time
in integer epoch units ("int (epoch units)", at least millisecond
resolution); we fix microseconds since the epoch. -/
abbrev Datetime := Int

/-- Modelled from the spec: `syscore.dateutils.datetime_to_long`, the
conversion of a datetime to the integer epoch units stored in the record. -/
def datetime_to_long (d : Datetime) : Int := d

/-- Modelled from the spec: `syscore.dateutils.long_to_datetime`, inverse of
`datetime_to_long`. -/
def long_to_datetime (n : Int) : Datetime := n

/-- Modelled from the spec: one day's worth of epoch units
(`datetime.timedelta(days=1)` at microsecond resolution). -/
def DAY_LENGTH : Int := 86400000000

/-- Modelled from the spec: `MONGO_ID_KEY`, the name of the store-assigned
object-identity field present on every persisted mapping. -/
def MONGO_ID_KEY : String := "_id"

def LEVEL_ID : String := "_Level"

def TIMESTAMP_ID : String := "_Timestamp"

def TEXT_ID : String := "_Text"

def LOG_RECORD_ID : String := "_Log_Record_id"

def MSG_LEVEL_DICT : List (String × String) :=
  [("m0", ""), ("m1", ""), ("m2", "[Warning]"), ("m3", "[Error]"), ("m4", "*CRITICAL*")]

/-- `MSG_LEVEL_DICT["m%d" % msglevel]`: `none` models the `KeyError` on a
severity outside 0-4. -/
def msg_level_text (msglevel : Int) : Option String :=
  (MSG_LEVEL_DICT.find? (fun kv => kv.1 = "m" ++ toString msglevel)).map (fun kv => kv.2)

/-- A database log entry (`logEntry.__init__`'s stored fields). -/
structure logEntry where
  use_attributes : Dict
  text : String
  msglevel : Int
  msglevel_text : String
  timestamp_as_long : Int
  timestamp : Datetime
  log_id : Int
  log_dict : Dict
deriving DecidableEq, Repr

/-- `logEntry.__init__` with an explicit timestamp (the Python default
`log_timestamp=None` substitutes the current time at the call site).
`none` models the `KeyError` raised on a severity outside 0-4. -/
def logEntry.build (text : String) (log_timestamp : Datetime) (msglevel : Int)
    (input_attributes : Dict) (log_id : Int) : Option logEntry :=
  match msg_level_text msglevel with
  | none => none
  | some mlt =>
    let log_timestamp_aslong := datetime_to_long log_timestamp
    let d := ((((input_attributes.insert LEVEL_ID (.int msglevel)).insert
        TIMESTAMP_ID (.int log_timestamp_aslong)).insert
        TEXT_ID (.str text)).insert
        LOG_RECORD_ID (.int log_id))
    some ⟨input_attributes, text, msglevel, mlt, log_timestamp_aslong,
      log_timestamp, log_id, d⟩

/-- `logEntry.log_entry_from_dict`: pops the store identity field and the
four reserved fields (each `pop` raising `KeyError` — here `none` — when
absent), then rebuilds the entry from the remainder. -/
def logEntry.log_entry_from_dict (log_dict_input : Dict) : Option logEntry :=
  match log_dict_input.pop MONGO_ID_KEY with
  | none => none
  | some (_, d1) =>
  match d1.pop TIMESTAMP_ID with
  | none => none
  | some (.int log_timestamp_aslong, d2) =>
    match d2.pop LEVEL_ID with
    | none => none
    | some (.int msg_level, d3) =>
      match d3.pop TEXT_ID with
      | none => none
      | some (.str text, d4) =>
        match d4.pop LOG_RECORD_ID with
        | none => none
        | some (.int log_id, input_attributes) =>
          logEntry.build text (long_to_datetime log_timestamp_aslong) msg_level
            input_attributes log_id
        | some _ => none
      | some _ => none
    | some _ => none
  | some _ => none

/-- `logtoscreen.log_handle_caller`: returns the lines printed to the
console and whether an exception was raised (`msglevel == 4` raises after
printing). `log_level` is the lower-cased threshold string. -/
def logtoscreen.log_handle_caller (log_level : String) (msglevel : Int)
    (text : String) : List String × Bool :=
  let first :=
    if msglevel = 0 then (if log_level = "on" then [text] else [])
    else if msglevel = 1 then
      (if log_level = "on" ∨ log_level = "terse" then [text] else [])
    else [text]
  let second := if msglevel = 2 then [text] else []
  let third := if msglevel = 3 then [text] else []
  (first ++ second ++ third, msglevel = 4)

/-- `collection.insert_one(doc)`: mongo appends the document in natural
order (the store-side `_id` assignment is external and not modelled). -/
def insert_one (coll : List Dict) (doc : Dict) : List Dict := coll ++ [doc]

/-- Is every constraint of the mongo filter satisfied by this document?
An equality constraint requires the field to hold exactly that value; a
`gt` operator document requires an integer field strictly greater. -/
def matchesConstraint (doc : Dict) (key : String) : Value → Bool
  | .gt n =>
    match doc.lookup key with
    | some (.int m) => decide (n < m)
    | _ => false
  | v => decide (doc.lookup key = some v)

def matchesFilter (filter : Dict) (doc : Dict) : Bool :=
  filter.all (fun kv => matchesConstraint doc kv.1 kv.2)

/-- `collection.find_one(filter)`: first document in natural order
satisfying the filter. -/
def find_one : List Dict → Dict → Option Dict
  | [], _ => none
  | d :: rest, filter => if matchesFilter filter d then some d else find_one rest filter

/-- `collection.find(filter)`: all documents satisfying the filter, in
natural order. -/
def find (coll : List Dict) (filter : Dict) : List Dict :=
  coll.filter (fun d => matchesFilter filter d)

/-- `collection.replace_one(filter, doc, upsert=True)`: replace the first
matching document in place, or append `doc` when none matches. -/
def replace_one_upsert : List Dict → Dict → Dict → List Dict
  | [], _, doc => [doc]
  | d :: rest, filter, doc =>
    if matchesFilter filter d then doc :: rest
    else d :: replace_one_upsert rest filter doc

/-- `dict(_meta_data="log_id")`, the filter locating the id counter record. -/
def LOG_ID_META_FILTER : Dict := [("_meta_data", Value.str "log_id")]

/-- `dict(_meta_data="log_id", next_id=next_id)`. -/
def next_id_dict (next_id : Int) : Dict :=
  [("_meta_data", Value.str "log_id"), ("next_id", Value.int next_id)]

/-- `logToMongod.get_last_used_log_id`: `none` when no counter record is
present (or it lacks an integer `next_id`, where Python would raise). -/
def get_last_used_log_id (coll : List Dict) : Option Int :=
  match find_one coll LOG_ID_META_FILTER with
  | none => none
  | some d =>
    match d.lookup "next_id" with
    | some (.int n) => some n
    | _ => none

/-- `logToMongod.update_log_id`: upsert of the counter record. -/
def update_log_id (coll : List Dict) (next_id : Int) : List Dict :=
  replace_one_upsert coll LOG_ID_META_FILTER (next_id_dict next_id)

/-- `logger.get_next_log_id`: read the last issued id (absence treated as
-1), add one, persist it, return it. -/
def get_next_log_id (coll : List Dict) : Int × List Dict :=
  let last_id := (get_last_used_log_id coll).getD (-1)
  let next_id := last_id + 1
  (next_id, update_log_id coll next_id)

/-- Driver for a single-threaded sequence of `get_next_log_id()` calls:
the ids returned, in call order, and the final store contents. -/
def issue_ids : Nat → List Dict → List Int × List Dict
  | 0, coll => ([], coll)
  | n + 1, coll =>
    let (i, coll1) := get_next_log_id coll
    let (rest, coll2) := issue_ids n coll1
    (i :: rest, coll2)

/-- `get_update_attributes_list`: copy the parent dict, then write each new
binding over it (key-wise last write wins). -/
def get_update_attributes_list (parent_attributes new_attributes : Dict) : Dict :=
  new_attributes.foldl (fun acc kv => acc.insert kv.1 kv.2) parent_attributes

def EMAIL_ON_LOG_LEVEL : List Int := [4]

/-- Outcome of a `logToMongod.log_handle_caller` call: the entry returned,
the final collection contents, and how many times `send_mail_msg` was
invoked. -/
structure LogOutcome where
  entry : logEntry
  coll : List Dict
  emails_attempted : Nat
deriving Repr

/-- One layer of `logToMongod.log_handle_caller`: builds the entry, prints
it, inserts its dict, and on a severity in `EMAIL_ON_LOG_LEVEL` emails the
user; a failing `send_mail_msg` (`email_fails = true`) is caught and
reported via `self.error("Couldn't email user")` — i.e. `self.log` at
severity 3, which draws a fresh id, merges the logger's own `attributes`
with no overrides, and re-enters the handler (`self`). `none` is an
exception propagating to the caller. -/
def logToMongod.log_handle_raw
    (self : Int → String → Dict → Int → List Dict → Option LogOutcome)
    (email_fails : Bool) (attributes : Dict) (now : Datetime)
    (msglevel : Int) (text : String) (input_attributes : Dict) (log_id : Int)
    (coll : List Dict) : Option LogOutcome :=
  match logEntry.build text now msglevel input_attributes log_id with
  | none => none
  | some log_entry =>
    let coll1 := insert_one coll log_entry.log_dict
    if msglevel ∈ EMAIL_ON_LOG_LEVEL then
      if email_fails then
        let (err_id, coll2) := get_next_log_id coll1
        let use_attributes := get_update_attributes_list attributes []
        match self 3 "Couldn't email user" use_attributes err_id coll2 with
        | none => none
        | some inner =>
          some ⟨log_entry, inner.coll, 1 + inner.emails_attempted⟩
      else some ⟨log_entry, coll1, 1⟩
    else some ⟨log_entry, coll1, 0⟩

/-- `logToMongod.log_handle_caller` as a fuel-indexed unrolling of
`log_handle_raw` (the self-call through `self.error` terminates because the
failure report's severity 3 is not in `EMAIL_ON_LOG_LEVEL`; `fuel` bounds
the unrolling, with exhaustion yielding `none`). -/
def logToMongod.log_handle_caller (fuel : Nat) (email_fails : Bool)
    (attributes : Dict) (now : Datetime) :
    Int → String → Dict → Int → List Dict → Option LogOutcome :=
  Nat.rec (fun _ _ _ _ _ => none)
    (fun _ ih => logToMongod.log_handle_raw ih email_fails attributes now) fuel

/-- Deserialize every retrieved mapping (the list comprehension in
`get_log_items_as_entries`): any failing record aborts the whole batch, as
the raised `KeyError` propagates out of the comprehension. -/
def log_entries_from_dicts : List Dict → Option (List logEntry)
  | [] => some []
  | d :: rest =>
    match logEntry.log_entry_from_dict d with
    | none => none
    | some e => (log_entries_from_dicts rest).map (fun es => e :: es)

/-- Stable insertion into a list sorted ascending by `log_id`. -/
def insertByLogId (e : logEntry) : List logEntry → List logEntry
  | [] => [e]
  | x :: xs =>
    if x.log_id ≤ e.log_id then x :: insertByLogId e xs else e :: x :: xs

/-- `results.sort(key=lambda x: x._log_id)`: stable ascending sort. -/
def sortByLogId : List logEntry → List logEntry
  | [] => []
  | x :: xs => insertByLogId x (sortByLogId xs)

/-- `accessLogFromMongodb.get_log_items_as_entries`: computes the cutoff,
mutates the caller's `attribute_dict` by inserting the `$gt` timestamp
constraint, finds the matching documents, deserializes each and sorts by
log id. Returns the mutated filter dict together with the result (`none`
models an exception escaping the call). -/
def get_log_items_as_entries (coll : List Dict) (attribute_dict : Dict)
    (now : Datetime) (lookback_days : Int) : Dict × Option (List logEntry) :=
  let cutoff_date := now - lookback_days * DAY_LENGTH
  let attribute_dict2 :=
    attribute_dict.insert TIMESTAMP_ID (Value.gt (datetime_to_long cutoff_date))
  let results_list := find coll attribute_dict2
  (attribute_dict2, (log_entries_from_dicts results_list).map sortByLogId)

/-- `str(log_entry)` (`logEntry.__repr__`). Modelled from the spec: the
render line `timestamp attributes severity-label text`; the external
datetime library's `strftime` calendar formatting is abstracted as numeric
rendering of the timestamp. -/
def logEntry.render (e : logEntry) : String :=
  toString e.timestamp ++ " " ++ toString (repr e.use_attributes) ++ " "
    ++ e.msglevel_text ++ " " ++ e.text

/-- `accessLogFromMongodb.get_log_items`: the entries as rendered text,
propagating the same filter-dict mutation. -/
def get_log_items (coll : List Dict) (attribute_dict : Dict)
    (now : Datetime) (lookback_days : Int) : Dict × Option (List String) :=
  let (d, results) := get_log_items_as_entries coll attribute_dict now lookback_days
  (d, results.map (fun es => es.map logEntry.render))

/-- The base `logger`: its attribute dict and lower-cased threshold. -/
structure logger where
  attributes : Dict
  log_level : String
deriving DecidableEq, Repr

/-- The `log_level` default parameter of `logger.__init__`. -/
def DEFAULT_LOG_LEVEL : String := "Off"

/-- Python `str.lower()` on the ASCII level names. -/
def py_lower (s : String) : String := String.mk (s.data.map Char.toLower)

/-- `logger.set_logging_level`: lower-case, then accept only the three
allowed levels (`none` models the exception on any other value). -/
def set_logging_level (new_level : String) : Option String :=
  let nl := py_lower new_level
  if nl ∈ (["off", "terse", "on"] : List String) then some nl else none

/-- The first positional argument of `logger.__init__`: a bare name or an
existing logger to copy. -/
inductive LogParent where
  | ofString : String → LogParent
  | ofLogger : logger → LogParent

/-- `logger.__init__(type, log_level, **kwargs)`: merge attributes from the
name or the parent logger, then validate and store the `log_level`
parameter (note: the parameter, not the parent's level). -/
def logger.init (ty : LogParent) (log_level : String) (kwargs : Dict) :
    Option logger :=
  let log_attributes :=
    match ty with
    | .ofString s => get_update_attributes_list [("type", Value.str s)] kwargs
    | .ofLogger lg => get_update_attributes_list lg.attributes kwargs
  (set_logging_level log_level).map (fun lv => ⟨log_attributes, lv⟩)

/-- `logger.setup(**kwargs)`: shallow-copy, install the merged attributes,
copy the log level from `self`. -/
def logger.setup (lg : logger) (kwargs : Dict) : logger :=
  ⟨get_update_attributes_list lg.attributes kwargs, lg.log_level⟩

/-- A heap of attribute dictionaries, for stating aliasing properties:
an address is an index into the allocation list. -/
structure Heap where
  dicts : List Dict
deriving Repr

def Heap.get (h : Heap) (a : Nat) : Dict := (h.dicts[a]?).getD []

def Heap.alloc (h : Heap) (d : Dict) : Nat × Heap :=
  (h.dicts.length, ⟨h.dicts ++ [d]⟩)

def Heap.write (h : Heap) (a : Nat) (d : Dict) : Heap := ⟨h.dicts.set a d⟩

/-- A logger whose attribute dict lives on the heap. -/
structure loggerRef where
  attrRef : Nat
  log_level : String
deriving DecidableEq, Repr

/-- Heap version of `get_update_attributes_list`: `copy(parent_attributes)`
allocates a fresh dict, and each subsequent item assignment mutates only
that fresh dict. -/
def get_update_attributes_list_ref (h : Heap) (parentRef : Nat)
    (new_attributes : Dict) : Nat × Heap :=
  let (joined, h1) := h.alloc (h.get parentRef)
  let h2 := new_attributes.foldl
    (fun hh kv => hh.write joined ((hh.get joined).insert kv.1 kv.2)) h1
  (joined, h2)

/-- Heap version of `logger.setup`: the copied logger is rebound to the
freshly merged dict; `self` keeps its own reference. -/
def logger_setup_ref (h : Heap) (lg : loggerRef) (kwargs : Dict) :
    loggerRef × Heap :=
  let (r, h1) := get_update_attributes_list_ref h lg.attrRef kwargs
  (⟨r, lg.log_level⟩, h1)

/-- Heap version of `logger.label`: `self.attributes` is rebound to the
freshly merged dict (the old dict object is not written to). -/
def logger_label_ref (h : Heap) (lg : loggerRef) (kwargs : Dict) :
    loggerRef × Heap :=
  let (r, h1) := get_update_attributes_list_ref h lg.attrRef kwargs
  (⟨r, lg.log_level⟩, h1)

/-- Heap version of `logger.__init__` from an existing logger. -/
def logger_init_from_ref (h : Heap) (parent : loggerRef) (log_level : String)
    (kwargs : Dict) : Option (loggerRef × Heap) :=
  (set_logging_level log_level).map (fun lv =>
    let (r, h1) := get_update_attributes_list_ref h parent.attrRef kwargs
    (⟨r, lv⟩, h1))

/-- Fixture: a well-formed stored mapping (severity 2, timestamp 1, id 0,
no user labels), as retrieved from the store. -/
def doc_ok : Dict :=
  [(MONGO_ID_KEY, Value.str "a"), (LEVEL_ID, Value.int 2),
    (TIMESTAMP_ID, Value.int 1), (TEXT_ID, Value.str "ok"),
    (LOG_RECORD_ID, Value.int 0)]

/-- Fixture: the entry `doc_ok` deserializes to. -/
def entry_ok : logEntry :=
  ⟨[], "ok", 2, "[Warning]", 1, 1, 0,
    [(LEVEL_ID, Value.int 2), (TIMESTAMP_ID, Value.int 1),
      (TEXT_ID, Value.str "ok"), (LOG_RECORD_ID, Value.int 0)]⟩

/-- Fixture: a corrupt stored mapping — the text marker `_Text` is
missing. -/
def doc_missing_text : Dict :=
  [(MONGO_ID_KEY, Value.str "b"), (LEVEL_ID, Value.int 2),
    (TIMESTAMP_ID, Value.int 1), (LOG_RECORD_ID, Value.int 1)]

/-- Fixture: a stored mapping whose timestamp lies exactly on the lookback
cutoff when queried at `now = DAY_LENGTH` with one lookback day. -/
def doc_boundary : Dict :=
  [(MONGO_ID_KEY, Value.str "c"), (LEVEL_ID, Value.int 0),
    (TIMESTAMP_ID, Value.int 0), (TEXT_ID, Value.str "t"),
    (LOG_RECORD_ID, Value.int 2)]

theorem Dict.lookup_append (d1 d2 : Dict) (k : String)
    (h : d1.lookup k = none) : Dict.lookup (d1 ++ d2) k = d2.lookup k := by
  induction d1 with
  | nil => rfl
  | cons kv rest ih =>
    simp only [Dict.lookup, List.cons_append] at h ⊢
    by_cases hk : kv.1 = k
    · simp [hk] at h
    · simp only [hk, if_false] at h ⊢
      exact ih h

theorem Dict.lookup_append_none (d1 d2 : Dict) (k : String)
    (h1 : d1.lookup k = none) (h2 : d2.lookup k = none) :
    Dict.lookup (d1 ++ d2) k = none := by
  rw [Dict.lookup_append d1 d2 k h1]; exact h2

theorem Dict.erase_append (d1 d2 : Dict) (k : String)
    (h : d1.lookup k = none) :
    Dict.erase (d1 ++ d2) k = d1 ++ Dict.erase d2 k := by
  induction d1 with
  | nil => rfl
  | cons kv rest ih =>
    obtain ⟨k1, v1⟩ := kv
    simp only [Dict.lookup, Dict.erase, List.cons_append] at h ⊢
    by_cases hk : k1 = k
    · simp [hk] at h
    · simp only [hk, if_false] at h ⊢
      exact congrArg (List.cons (k1, v1)) (ih h)

theorem Dict.insert_append (d : Dict) (k : String) (v : Value)
    (h : d.lookup k = none) : d.insert k v = d ++ [(k, v)] := by
  induction d with
  | nil => rfl
  | cons kv rest ih =>
    obtain ⟨k1, v1⟩ := kv
    simp only [Dict.lookup, Dict.insert, List.cons_append] at h ⊢
    by_cases hk : k1 = k
    · simp [hk] at h
    · simp only [hk, if_false] at h ⊢
      exact congrArg (List.cons (k1, v1)) (ih h)

theorem Dict.pop_append (d1 d2 : Dict) (k : String)
    (h : d1.lookup k = none) :
    Dict.pop (d1 ++ d2) k = (Dict.pop d2 k).map (fun p => (p.1, d1 ++ p.2)) := by
  unfold Dict.pop
  rw [Dict.lookup_append d1 d2 k h]
  cases Dict.lookup d2 k with
  | none => rfl
  | some v => simp [Dict.erase_append d1 d2 k h]

/-- The persisted shape of a built entry: its `log_dict` plus the
store-assigned identity field is the user attributes followed by the five
internal fields, provided the user attributes avoid the reserved keys. -/
theorem logEntry.log_dict_shape (text : String) (ts : Datetime) (lvl : Int)
    (attrs : Dict) (lid : Int) (oid : Value) (e : logEntry)
    (hL : attrs.lookup LEVEL_ID = none)
    (hT : attrs.lookup TIMESTAMP_ID = none)
    (hX : attrs.lookup TEXT_ID = none)
    (hR : attrs.lookup LOG_RECORD_ID = none)
    (hM : attrs.lookup MONGO_ID_KEY = none)
    (hbuild : logEntry.build text ts lvl attrs lid = some e) :
    e.log_dict.insert MONGO_ID_KEY oid = attrs ++
      [(LEVEL_ID, Value.int lvl), (TIMESTAMP_ID, Value.int (datetime_to_long ts)),
        (TEXT_ID, Value.str text), (LOG_RECORD_ID, Value.int lid),
        (MONGO_ID_KEY, oid)] := by
  unfold logEntry.build at hbuild
  cases hml : msg_level_text lvl with
  | none => rw [hml] at hbuild; cases hbuild
  | some mlt =>
    rw [hml] at hbuild
    simp only [Option.some.injEq] at hbuild
    have hd : e.log_dict =
        (((attrs.insert LEVEL_ID (Value.int lvl)).insert
          TIMESTAMP_ID (Value.int (datetime_to_long ts))).insert
          TEXT_ID (Value.str text)).insert
          LOG_RECORD_ID (Value.int lid) := by rw [← hbuild]
    rw [hd]
    rw [Dict.insert_append _ _ _ hL]
    have n2 : (attrs ++ [(LEVEL_ID, Value.int lvl)]).lookup TIMESTAMP_ID = none :=
      Dict.lookup_append_none _ _ _ hT (by rfl)
    rw [Dict.insert_append _ _ _ n2]
    have n3 : ((attrs ++ [(LEVEL_ID, Value.int lvl)]) ++
        [(TIMESTAMP_ID, Value.int (datetime_to_long ts))]).lookup TEXT_ID = none :=
      Dict.lookup_append_none _ _ _
        (Dict.lookup_append_none _ _ _ hX (by rfl)) (by rfl)
    rw [Dict.insert_append _ _ _ n3]
    have n4 : (((attrs ++ [(LEVEL_ID, Value.int lvl)]) ++
        [(TIMESTAMP_ID, Value.int (datetime_to_long ts))]) ++
        [(TEXT_ID, Value.str text)]).lookup LOG_RECORD_ID = none :=
      Dict.lookup_append_none _ _ _ (Dict.lookup_append_none _ _ _
        (Dict.lookup_append_none _ _ _ hR (by rfl)) (by rfl)) (by rfl)
    rw [Dict.insert_append _ _ _ n4]
    have n5 : ((((attrs ++ [(LEVEL_ID, Value.int lvl)]) ++
        [(TIMESTAMP_ID, Value.int (datetime_to_long ts))]) ++
        [(TEXT_ID, Value.str text)]) ++
        [(LOG_RECORD_ID, Value.int lid)]).lookup MONGO_ID_KEY = none :=
      Dict.lookup_append_none _ _ _ (Dict.lookup_append_none _ _ _
        (Dict.lookup_append_none _ _ _ (Dict.lookup_append_none _ _ _ hM
          (by rfl)) (by rfl)) (by rfl)) (by rfl)
    rw [Dict.insert_append _ _ _ n5]
    simp [List.append_assoc]

/-- Deserializing the canonical persisted shape rebuilds the entry. -/
theorem logEntry.from_dict_of_reserved (attrs : Dict) (lvl tl lid : Int)
    (text : String) (oid : Value)
    (hL : attrs.lookup LEVEL_ID = none)
    (hT : attrs.lookup TIMESTAMP_ID = none)
    (hX : attrs.lookup TEXT_ID = none)
    (hR : attrs.lookup LOG_RECORD_ID = none)
    (hM : attrs.lookup MONGO_ID_KEY = none) :
    logEntry.log_entry_from_dict (attrs ++
      [(LEVEL_ID, Value.int lvl), (TIMESTAMP_ID, Value.int tl),
        (TEXT_ID, Value.str text), (LOG_RECORD_ID, Value.int lid),
        (MONGO_ID_KEY, oid)]) =
    logEntry.build text (long_to_datetime tl) lvl attrs lid := by
  have p5 : Dict.pop [(LEVEL_ID, Value.int lvl), (TIMESTAMP_ID, Value.int tl),
      (TEXT_ID, Value.str text), (LOG_RECORD_ID, Value.int lid),
      (MONGO_ID_KEY, oid)] MONGO_ID_KEY = some (oid,
      [(LEVEL_ID, Value.int lvl), (TIMESTAMP_ID, Value.int tl),
        (TEXT_ID, Value.str text), (LOG_RECORD_ID, Value.int lid)]) := rfl
  have p4 : Dict.pop [(LEVEL_ID, Value.int lvl), (TIMESTAMP_ID, Value.int tl),
      (TEXT_ID, Value.str text), (LOG_RECORD_ID, Value.int lid)] TIMESTAMP_ID =
      some (Value.int tl, [(LEVEL_ID, Value.int lvl),
        (TEXT_ID, Value.str text), (LOG_RECORD_ID, Value.int lid)]) := rfl
  have p3 : Dict.pop [(LEVEL_ID, Value.int lvl), (TEXT_ID, Value.str text),
      (LOG_RECORD_ID, Value.int lid)] LEVEL_ID = some (Value.int lvl,
      [(TEXT_ID, Value.str text), (LOG_RECORD_ID, Value.int lid)]) := rfl
  have p2 : Dict.pop [(TEXT_ID, Value.str text), (LOG_RECORD_ID, Value.int lid)]
      TEXT_ID = some (Value.str text, [(LOG_RECORD_ID, Value.int lid)]) := rfl
  have p1 : Dict.pop [(LOG_RECORD_ID, Value.int lid)] LOG_RECORD_ID =
      some (Value.int lid, []) := rfl
  unfold logEntry.log_entry_from_dict
  simp only [Dict.pop_append _ _ _ hM, p5, Option.map_some',
    Dict.pop_append _ _ _ hT, p4, Dict.pop_append _ _ _ hL, p3,
    Dict.pop_append _ _ _ hX, p2, Dict.pop_append _ _ _ hR, p1,
    List.append_nil]

/-- C1: for every valid log record (severity 0-4, user attributes free of
the four reserved keys and the store identity key), deserializing the
persisted flat mapping — the record's `log_dict` plus the store-assigned
identity field — yields a `logEntry` with the same text, severity,
timestamp, attributes and id. -/
theorem C1_roundtrip (text : String) (ts : Datetime) (lvl : Int)
    (attrs : Dict) (lid : Int) (oid : Value) (e : logEntry)
    (hL : attrs.lookup LEVEL_ID = none)
    (hT : attrs.lookup TIMESTAMP_ID = none)
    (hX : attrs.lookup TEXT_ID = none)
    (hR : attrs.lookup LOG_RECORD_ID = none)
    (hM : attrs.lookup MONGO_ID_KEY = none)
    (hbuild : logEntry.build text ts lvl attrs lid = some e) :
    ∃ e', logEntry.log_entry_from_dict (e.log_dict.insert MONGO_ID_KEY oid) = some e'
      ∧ e'.text = e.text ∧ e'.msglevel = e.msglevel ∧ e'.timestamp = e.timestamp
      ∧ e'.use_attributes = e.use_attributes ∧ e'.log_id = e.log_id := by
  refine ⟨e, ?_, rfl, rfl, rfl, rfl, rfl⟩
  rw [logEntry.log_dict_shape text ts lvl attrs lid oid e hL hT hX hR hM hbuild]
  rw [logEntry.from_dict_of_reserved attrs lvl (datetime_to_long ts) lid text oid
    hL hT hX hR hM]
  exact hbuild

/-- After `update_log_id`, the counter record is found and holds the
written value: the upsert either appends the meta record (no previous
match, and it becomes the sole match) or replaces the first matching
record in place (and stays the first match). -/
theorem get_last_after_update (coll : List Dict) (n : Int) :
    get_last_used_log_id (update_log_id coll n) = some n := by
  have hmeta : matchesFilter LOG_ID_META_FILTER (next_id_dict n) = true := rfl
  induction coll with
  | nil => rfl
  | cons d rest ih =>
    simp only [update_log_id, replace_one_upsert] at ih ⊢
    by_cases hm : matchesFilter LOG_ID_META_FILTER d
    · simp only [hm, if_true]
      simp only [get_last_used_log_id, find_one, hmeta, if_true]
      rfl
    · simp only [hm, if_false]
      simp only [get_last_used_log_id, find_one, hm, if_false] at ih ⊢
      exact ih

/-- Ids issued by consecutive calls continue `m + 1, m + 2, ...` from a
store whose counter holds `m`. -/
theorem issue_ids_from (k : Nat) (coll : List Dict) (m : Int)
    (h : get_last_used_log_id coll = some m) :
    (issue_ids k coll).1 = (List.range k).map (fun j : Nat => m + 1 + (j : Int)) := by
  induction k generalizing coll m with
  | zero => rfl
  | succ k ih =>
    simp only [issue_ids, get_next_log_id, h, Option.getD_some]
    rw [ih (update_log_id coll (m + 1)) (m + 1) (get_last_after_update coll (m + 1))]
    rw [List.range_succ_eq_map]
    simp only [List.map_cons, List.map_map, Nat.cast_zero, add_zero]
    refine congrArg (List.cons (m + 1)) (List.map_congr_left ?_)
    intro j _
    simp only [Function.comp_apply, Nat.cast_succ]
    ring

/-- C3: against a store with no counter record, consecutive
`get_next_log_id()` calls return 0, 1, 2, ... in call order; and whenever
the persisted counter holds N, the next call returns N + 1 (never a reset
to 0). -/
theorem C3_sequencer_ids (k : Nat) (coll : List Dict)
    (h : get_last_used_log_id coll = none) :
    (issue_ids k coll).1 = (List.range k).map (fun j : Nat => (j : Int))
    ∧ ∀ (N : Int) (c : List Dict), get_last_used_log_id c = some N →
        (get_next_log_id c).1 = N + 1 := by
  constructor
  · cases k with
    | zero => rfl
    | succ k =>
      simp only [issue_ids, get_next_log_id, h, Option.getD_none]
      rw [issue_ids_from k (update_log_id coll (-1 + 1)) (-1 + 1)
        (get_last_after_update coll (-1 + 1))]
      rw [List.range_succ_eq_map]
      simp only [List.map_cons, List.map_map, Nat.cast_zero]
      norm_num
      intro j _
      ring
  · intro N c hc
    simp only [get_next_log_id, hc, Option.getD_some]

/-- Witness for C3: three calls on an empty store yield 0, 1, 2; after the
counter is persisted at 41, the next call returns 42. -/
theorem C3_sequencer_ids_witness :
    get_last_used_log_id [] = none
    ∧ (issue_ids 3 []).1 = ([0, 1, 2] : List Int)
    ∧ (get_next_log_id (update_log_id [] 41)).1 = 42 :=
  ⟨rfl, by rw [(C3_sequencer_ids 3 [] rfl).1]; rfl,
    (C3_sequencer_ids 0 [] rfl).2 41 (update_log_id [] 41)
      (get_last_after_update [] 41)⟩

/-- C4 (code bug): at severity 2 (and 3) the console handler prints the
text twice — once in the catch-all `else` branch and once more in the
separate `if msglevel == 2` (resp. 3) block — for every threshold,
contradicting the claim's "exactly one console emission" and the class's
own doctest, which expects `log.warn`/`log.error` to print a single line. -/
theorem C4_double_emission :
    (logtoscreen.log_handle_caller "off" 2 "this will").1 =
      ["this will", "this will"]
    ∧ (logtoscreen.log_handle_caller "off" 3 "and this").1 =
      ["and this", "and this"]
    ∧ (logtoscreen.log_handle_caller "on" 2 "this will").1 =
      ["this will", "this will"] :=
  ⟨rfl, rfl, rfl⟩

theorem Dict.lookup_insert (d : Dict) (k k' : String) (v : Value) :
    (d.insert k v).lookup k' = if k = k' then some v else d.lookup k' := by
  induction d with
  | nil => rfl
  | cons kv rest ih =>
    obtain ⟨k1, v1⟩ := kv
    simp only [Dict.insert]
    by_cases h1 : k1 = k
    · subst h1
      by_cases h2 : k1 = k' <;> simp [Dict.lookup, h2]
    · simp only [h1, if_false, Dict.lookup, ih]
      by_cases h2 : k1 = k'
      · have h3 : ¬ k = k' := fun hk => h1 (h2.trans hk.symm)
        simp [h2, h3]
      · simp [h2]

/-- A document that does not satisfy the filter survives a
`replace_one(..., upsert=True)` call. -/
theorem mem_replace_one_upsert (coll : List Dict) (filter doc d : Dict)
    (hd : matchesFilter filter d = false) (hmem : d ∈ coll) :
    d ∈ replace_one_upsert coll filter doc := by
  induction coll with
  | nil => cases hmem
  | cons c rest ih =>
    simp only [replace_one_upsert]
    by_cases hm : matchesFilter filter c
    · simp only [hm, if_true]
      rcases List.mem_cons.mp hmem with rfl | hmem'
      · rw [hm] at hd; cases hd
      · exact List.mem_cons_of_mem _ hmem'
    · simp only [hm, if_false]
      rcases List.mem_cons.mp hmem with rfl | hmem'
      · exact List.mem_cons_self _ _
      · exact List.mem_cons_of_mem _ (ih hmem')

/-- A document without a `_meta_data` field never matches the id-counter
filter. -/
theorem meta_filter_no_match (d : Dict) (h : d.lookup "_meta_data" = none) :
    matchesFilter LOG_ID_META_FILTER d = false := by
  simp [matchesFilter, matchesConstraint, LOG_ID_META_FILTER, h]

/-- The serialized dict of a built entry has no `_meta_data` field when the
input attributes have none (the four reserved keys differ from it). -/
theorem build_dict_meta_none (attrs : Dict) (lvl tsl lid : Int) (text : String)
    (h : attrs.lookup "_meta_data" = none) :
    ((((attrs.insert LEVEL_ID (Value.int lvl)).insert
      TIMESTAMP_ID (Value.int tsl)).insert
      TEXT_ID (Value.str text)).insert
      LOG_RECORD_ID (Value.int lid)).lookup "_meta_data" = none := by
  simp [Dict.lookup_insert, LEVEL_ID, TIMESTAMP_ID, TEXT_ID, LOG_RECORD_ID, h]

/-- A non-counter document inserted before the counter upsert is still in
the collection after it and after a further insert. -/
theorem crit_mem_after (coll : List Dict) (cd : Dict) (eid : Int) (ed : Dict)
    (hfalse : matchesFilter LOG_ID_META_FILTER cd = false) :
    cd ∈ insert_one (update_log_id (insert_one coll cd) eid) ed := by
  unfold insert_one update_log_id
  refine List.mem_append_left _ (mem_replace_one_upsert _ _ _ _ hfalse ?_)
  exact List.mem_append_right _ (List.mem_singleton_self _)

/-- C5: a critical-severity (4) emission through the mongo sink whose email
notification raises is caught (the handler still returns normally), the
mail transport is invoked exactly once (the failure report draws no second
notification), the sink persists exactly one additional record — at error
severity 3 with text "Couldn't email user" — after the original critical
record was already inserted, and severity 3 is not escalation-eligible. -/
theorem C5_critical_escalation (attributes input_attributes : Dict)
    (text : String) (now : Datetime) (log_id : Int) (coll : List Dict)
    (fuel : Nat)
    (hI : input_attributes.lookup "_meta_data" = none) :
    ∃ outcome : LogOutcome,
      logToMongod.log_handle_caller (fuel + 2) true attributes now 4 text
          input_attributes log_id coll = some outcome
      ∧ outcome.emails_attempted = 1
      ∧ outcome.entry.msglevel = 4
      ∧ outcome.entry.text = text
      ∧ outcome.entry.log_dict ∈ outcome.coll
      ∧ (∃ errdict : Dict,
          outcome.coll = insert_one (update_log_id
              (insert_one coll outcome.entry.log_dict)
              ((get_next_log_id (insert_one coll outcome.entry.log_dict)).1))
            errdict
          ∧ errdict.lookup LEVEL_ID = some (Value.int 3)
          ∧ errdict.lookup TEXT_ID = some (Value.str "Couldn't email user"))
      ∧ ¬ ((3 : Int) ∈ EMAIL_ON_LOG_LEVEL) := by
  refine ⟨_, rfl, rfl, rfl, rfl, ?_, ⟨_, rfl, ?_, ?_⟩, by decide⟩
  · exact crit_mem_after coll _ _ _ (meta_filter_no_match _
      (build_dict_meta_none input_attributes 4 (datetime_to_long now) log_id
        text hI))
  · simp [Dict.lookup_insert, LEVEL_ID, TIMESTAMP_ID, TEXT_ID, LOG_RECORD_ID]
  · simp [Dict.lookup_insert, LEVEL_ID, TIMESTAMP_ID, TEXT_ID, LOG_RECORD_ID]

/-- Witness for C5 at a concrete emission. -/
theorem C5_critical_escalation_witness :
    (([("type", Value.str "sys")] : Dict).lookup "_meta_data" = none)
    ∧ ∃ outcome : LogOutcome,
      logToMongod.log_handle_caller 2 true [("type", Value.str "sys")] 0 4
          "boom" [("type", Value.str "sys")] 5 [] = some outcome
      ∧ outcome.emails_attempted = 1
      ∧ outcome.entry.msglevel = 4
      ∧ outcome.entry.text = "boom"
      ∧ outcome.entry.log_dict ∈ outcome.coll
      ∧ (∃ errdict : Dict,
          outcome.coll = insert_one (update_log_id
              (insert_one [] outcome.entry.log_dict)
              ((get_next_log_id (insert_one [] outcome.entry.log_dict)).1))
            errdict
          ∧ errdict.lookup LEVEL_ID = some (Value.int 3)
          ∧ errdict.lookup TEXT_ID = some (Value.str "Couldn't email user"))
      ∧ ¬ ((3 : Int) ∈ EMAIL_ON_LOG_LEVEL) :=
  ⟨rfl, C5_critical_escalation [("type", Value.str "sys")]
    [("type", Value.str "sys")] "boom" 0 5 [] 0 rfl⟩

/-- Witness for C1 at a concrete record. -/
theorem C1_roundtrip_witness :
    (([("type", Value.str "sys")] : Dict).lookup LEVEL_ID = none)
    ∧ ∃ e, logEntry.build "disk full" 5 3 [("type", Value.str "sys")] 7 = some e
      ∧ ∃ e', logEntry.log_entry_from_dict
            (e.log_dict.insert MONGO_ID_KEY (Value.str "objid")) = some e'
        ∧ e'.text = e.text ∧ e'.msglevel = e.msglevel ∧ e'.timestamp = e.timestamp
        ∧ e'.use_attributes = e.use_attributes ∧ e'.log_id = e.log_id :=
  ⟨by decide, _, rfl,
    C1_roundtrip "disk full" 5 3 [("type", Value.str "sys")] 7 (Value.str "objid") _
      (by decide) (by decide) (by decide) (by decide) (by decide) rfl⟩

/-- C7 counterexample: deriving via the constructor form `logger(B)` with
the `log_level` parameter left at its default does not preserve B's
threshold — a parent at "on" yields a child at "off". -/
theorem C7_counterexample :
    ∃ B : logger, logger.init (.ofString "another_system") "on" [] = some B
      ∧ (logger.init (.ofLogger B) DEFAULT_LOG_LEVEL []).map logger.log_level
          = some "off"
      ∧ B.log_level = "on"
      ∧ ("off" : String) ≠ "on" :=
  ⟨⟨[("type", Value.str "another_system")], "on"⟩, rfl, rfl, rfl, by decide⟩

/-- C7 amended: deriving via `setup` copies the threshold from the base;
the constructor form `logger(B, **overrides)` instead takes its threshold
from the `log_level` parameter (lower-cased, default "Off"), regardless of
B's threshold. -/
theorem C7_threshold_derivation (B : logger) (kwargs : Dict) :
    (B.setup kwargs).log_level = B.log_level
    ∧ ∀ (ll : String) (d : logger),
        logger.init (.ofLogger B) ll kwargs = some d →
        d.log_level = py_lower ll := by
  refine ⟨rfl, ?_⟩
  intro ll d hd
  unfold logger.init set_logging_level at hd
  by_cases h : py_lower ll ∈ (["off", "terse", "on"] : List String)
  · simp only [h, if_true, Option.map_some', Option.some.injEq] at hd
    rw [← hd]
  · simp [h] at hd

/-- Witness for C7's amended statement. -/
theorem C7_threshold_derivation_witness :
    (logger.setup ⟨[("type", Value.str "a")], "terse"⟩ []).log_level = "terse"
    ∧ (⟨[("type", Value.str "a")], "on"⟩ : logger).log_level = py_lower "On" :=
  ⟨(C7_threshold_derivation ⟨[("type", Value.str "a")], "terse"⟩ []).1,
    (C7_threshold_derivation ⟨[("type", Value.str "a")], "terse"⟩ []).2 "On"
      ⟨[("type", Value.str "a")], "on"⟩ rfl⟩

/-- C9: the query call mutates the caller's attribute filter in place,
inserting the reserved timestamp key with the time-range predicate, so the
filter observably differs afterwards; `get_log_items` exhibits the same
mutated dict (covering the shared default `dict()` argument, which is the
special case of an empty filter). -/
theorem C9_filter_mutation (coll : List Dict) (F : Dict) (now : Datetime)
    (days : Int) (hF : F.lookup TIMESTAMP_ID = none) :
    (get_log_items_as_entries coll F now days).1 =
      F.insert TIMESTAMP_ID (Value.gt (datetime_to_long (now - days * DAY_LENGTH)))
    ∧ (get_log_items_as_entries coll F now days).1 ≠ F
    ∧ (get_log_items coll F now days).1 = (get_log_items_as_entries coll F now days).1 := by
  refine ⟨rfl, ?_, rfl⟩
  show F.insert TIMESTAMP_ID (Value.gt (datetime_to_long (now - days * DAY_LENGTH))) ≠ F
  rw [Dict.insert_append _ _ _ hF]
  intro hcontra
  have hlen := congrArg List.length hcontra
  simp at hlen

/-- Witness for C9 at a concrete filter. -/
theorem C9_filter_mutation_witness :
    (([("type", Value.str "X")] : Dict).lookup TIMESTAMP_ID = none)
    ∧ (get_log_items_as_entries [] [("type", Value.str "X")] 0 1).1 =
        Dict.insert [("type", Value.str "X")] TIMESTAMP_ID
          (Value.gt (datetime_to_long (0 - 1 * DAY_LENGTH)))
    ∧ (get_log_items_as_entries [] [("type", Value.str "X")] 0 1).1 ≠
        [("type", Value.str "X")]
    ∧ (get_log_items [] [("type", Value.str "X")] 0 1).1 =
        (get_log_items_as_entries [] [("type", Value.str "X")] 0 1).1 :=
  ⟨rfl, (C9_filter_mutation [] [("type", Value.str "X")] 0 1 rfl).1,
    (C9_filter_mutation [] [("type", Value.str "X")] 0 1 rfl).2.1,
    (C9_filter_mutation [] [("type", Value.str "X")] 0 1 rfl).2.2⟩

theorem log_entries_from_dicts_mem (l : List Dict) (es : List logEntry)
    (h : log_entries_from_dicts l = some es) :
    ∀ e, e ∈ es ↔ ∃ d, d ∈ l ∧ logEntry.log_entry_from_dict d = some e := by
  induction l generalizing es with
  | nil =>
    simp only [log_entries_from_dicts, Option.some.injEq] at h
    subst h
    simp
  | cons d rest ih =>
    simp only [log_entries_from_dicts] at h
    cases hd : logEntry.log_entry_from_dict d with
    | none => simp only [hd] at h; cases h
    | some e0 =>
      simp only [hd] at h
      cases hrest : log_entries_from_dicts rest with
      | none => simp only [hrest, Option.map_none'] at h; cases h
      | some es0 =>
        simp only [hrest, Option.map_some', Option.some.injEq] at h
        subst h
        intro e
        simp only [List.mem_cons]
        constructor
        · rintro (rfl | he)
          · exact ⟨d, Or.inl rfl, hd⟩
          · obtain ⟨d', hd', hfd'⟩ := (ih es0 hrest e).mp he
            exact ⟨d', Or.inr hd', hfd'⟩
        · rintro ⟨d', rfl | hd'', hfd'⟩
          · left
            rw [hd] at hfd'
            exact (Option.some.inj hfd').symm
          · right
            exact (ih es0 hrest e).mpr ⟨d', hd'', hfd'⟩

theorem log_entries_from_dicts_none (l : List Dict)
    (h : ∃ d, d ∈ l ∧ logEntry.log_entry_from_dict d = none) :
    log_entries_from_dicts l = none := by
  induction l with
  | nil => obtain ⟨d, hd, _⟩ := h; cases hd
  | cons d rest ih =>
    obtain ⟨d', hd', hfd'⟩ := h
    simp only [log_entries_from_dicts]
    rcases List.mem_cons.mp hd' with rfl | hd''
    · rw [hfd']
    · cases hd : logEntry.log_entry_from_dict d with
      | none => rfl
      | some e0 => rw [ih ⟨d', hd'', hfd'⟩]; rfl

theorem insertByLogId_perm (e : logEntry) (l : List logEntry) :
    (insertByLogId e l).Perm (e :: l) := by
  induction l with
  | nil => exact List.Perm.refl _
  | cons x xs ih =>
    simp only [insertByLogId]
    by_cases hle : x.log_id ≤ e.log_id
    · simp only [hle, if_true]
      exact (List.Perm.cons x ih).trans (List.Perm.swap e x xs)
    · simp only [hle, if_false]
      exact List.Perm.refl _

theorem sortByLogId_perm (l : List logEntry) : (sortByLogId l).Perm l := by
  induction l with
  | nil => exact List.Perm.refl _
  | cons x xs ih =>
    exact (insertByLogId_perm x (sortByLogId xs)).trans (List.Perm.cons x ih)

theorem insertByLogId_sorted (e : logEntry) (l : List logEntry)
    (h : l.Pairwise (fun a b => a.log_id ≤ b.log_id)) :
    (insertByLogId e l).Pairwise (fun a b => a.log_id ≤ b.log_id) := by
  induction l with
  | nil => simp [insertByLogId]
  | cons x xs ih =>
    rw [List.pairwise_cons] at h
    obtain ⟨hx, hxs⟩ := h
    simp only [insertByLogId]
    by_cases hle : x.log_id ≤ e.log_id
    · simp only [hle, if_true]
      rw [List.pairwise_cons]
      refine ⟨?_, ih hxs⟩
      intro b hb
      rcases List.mem_cons.mp ((insertByLogId_perm e xs).mem_iff.mp hb) with rfl | h2
      · exact hle
      · exact hx b h2
    · simp only [hle, if_false]
      have hel : e.log_id ≤ x.log_id := le_of_not_le hle
      rw [List.pairwise_cons]
      refine ⟨?_, List.pairwise_cons.mpr ⟨hx, hxs⟩⟩
      intro b hb
      rcases List.mem_cons.mp hb with rfl | hbxs
      · exact hel
      · exact le_trans hel (hx b hbxs)

theorem sortByLogId_sorted (l : List logEntry) :
    (sortByLogId l).Pairwise (fun a b => a.log_id ≤ b.log_id) := by
  induction l with
  | nil => simp [sortByLogId]
  | cons x xs ih => exact insertByLogId_sorted x (sortByLogId xs) ih

theorem matchesFilter_append (f1 f2 d : Dict) :
    matchesFilter (f1 ++ f2) d = (matchesFilter f1 d && matchesFilter f2 d) := by
  simp [matchesFilter, List.all_append]

theorem matchesConstraint_gt (d : Dict) (k : String) (c : Int) :
    matchesConstraint d k (Value.gt c) = true ↔
      ∃ t : Int, d.lookup k = some (Value.int t) ∧ c < t := by
  unfold matchesConstraint
  cases hl : d.lookup k with
  | none => simp [hl]
  | some v =>
    cases v with
    | str s => simp [hl]
    | int m => simp [hl]
    | gt x => simp [hl]

/-- C6 amended: the query selects exactly the stored records matching the
attribute filter whose timestamp is STRICTLY greater than `now - lookback`
(the code issues a `$gt` bound, so a record exactly on the cutoff is
excluded), and returns the deserialized results sorted ascending by record
id. -/
theorem C6_query_semantics (coll : List Dict) (F : Dict) (now : Datetime)
    (days : Int) (es : List logEntry)
    (hF : F.lookup TIMESTAMP_ID = none)
    (h : (get_log_items_as_entries coll F now days).2 = some es) :
    es.Pairwise (fun a b => a.log_id ≤ b.log_id)
    ∧ ∀ e, e ∈ es ↔ ∃ d, d ∈ coll ∧ matchesFilter F d = true
        ∧ (∃ t : Int, d.lookup TIMESTAMP_ID = some (Value.int t)
            ∧ datetime_to_long (now - days * DAY_LENGTH) < t)
        ∧ logEntry.log_entry_from_dict d = some e := by
  have h' : (log_entries_from_dicts (find coll (F.insert TIMESTAMP_ID
      (Value.gt (datetime_to_long (now - days * DAY_LENGTH)))))).map sortByLogId
      = some es := h
  cases hdes : log_entries_from_dicts (find coll (F.insert TIMESTAMP_ID
      (Value.gt (datetime_to_long (now - days * DAY_LENGTH))))) with
  | none => rw [hdes] at h'; cases h'
  | some es0 =>
    rw [hdes, Option.map_some', Option.some.injEq] at h'
    subst h'
    refine ⟨sortByLogId_sorted es0, ?_⟩
    intro e
    rw [(sortByLogId_perm es0).mem_iff]
    rw [log_entries_from_dicts_mem _ _ hdes e]
    constructor
    · rintro ⟨d, hdin, hfd⟩
      simp only [find, List.mem_filter] at hdin
      obtain ⟨hdc, hmf⟩ := hdin
      rw [Dict.insert_append _ _ _ hF, matchesFilter_append,
        Bool.and_eq_true] at hmf
      obtain ⟨hmF, hgt⟩ := hmf
      have hc : matchesConstraint d TIMESTAMP_ID (Value.gt
          (datetime_to_long (now - days * DAY_LENGTH))) = true := by
        simpa [matchesFilter] using hgt
      rw [matchesConstraint_gt] at hc
      exact ⟨d, hdc, hmF, hc, hfd⟩
    · rintro ⟨d, hdc, hmF, hex, hfd⟩
      refine ⟨d, ?_, hfd⟩
      simp only [find, List.mem_filter]
      refine ⟨hdc, ?_⟩
      rw [Dict.insert_append _ _ _ hF, matchesFilter_append, Bool.and_eq_true]
      refine ⟨hmF, ?_⟩
      simp only [matchesFilter, List.all_cons, List.all_nil, Bool.and_true]
      exact (matchesConstraint_gt d TIMESTAMP_ID _).mpr hex

/-- Witness for C6's amended statement at a one-record store. -/
theorem C6_query_semantics_witness :
    (([] : Dict).lookup TIMESTAMP_ID = none)
    ∧ (get_log_items_as_entries [doc_ok] [] DAY_LENGTH 1).2 = some [entry_ok]
    ∧ (([entry_ok] : List logEntry).Pairwise (fun a b => a.log_id ≤ b.log_id)
      ∧ ∀ e, e ∈ ([entry_ok] : List logEntry) ↔ ∃ d, d ∈ [doc_ok]
          ∧ matchesFilter [] d = true
          ∧ (∃ t : Int, d.lookup TIMESTAMP_ID = some (Value.int t)
              ∧ datetime_to_long (DAY_LENGTH - 1 * DAY_LENGTH) < t)
          ∧ logEntry.log_entry_from_dict d = some e) :=
  ⟨rfl, by decide,
    C6_query_semantics [doc_ok] [] DAY_LENGTH 1 [entry_ok] rfl (by decide)⟩

/-- C6 counterexample: a record whose timestamp equals the cutoff
`now - lookback` matches the empty attribute filter and deserializes, yet
the query returns no records — the code's bound is strictly greater, not
"at or after the cutoff". -/
theorem C6_boundary_excluded :
    (get_log_items_as_entries [doc_boundary] [] DAY_LENGTH 1).2 = some []
    ∧ Dict.lookup doc_boundary TIMESTAMP_ID =
        some (Value.int (datetime_to_long (DAY_LENGTH - 1 * DAY_LENGTH)))
    ∧ (logEntry.log_entry_from_dict doc_boundary).isSome = true
    ∧ matchesFilter [] doc_boundary = true :=
  ⟨by decide, by decide, by decide, rfl⟩

/-- C2 amended: one corrupt stored mapping among the retrieved batch aborts
the whole retrieval — the deserialization failure propagates out of the
list comprehension and `get_log_items_as_entries` returns nothing, instead
of the valid records plus a per-record error. -/
theorem C2_corrupt_aborts_batch (coll : List Dict) (F : Dict) (now : Datetime)
    (days : Int)
    (h : ∃ d, d ∈ find coll (F.insert TIMESTAMP_ID (Value.gt
        (datetime_to_long (now - days * DAY_LENGTH))))
      ∧ logEntry.log_entry_from_dict d = none) :
    (get_log_items_as_entries coll F now days).2 = none := by
  show (log_entries_from_dicts (find coll (F.insert TIMESTAMP_ID (Value.gt
      (datetime_to_long (now - days * DAY_LENGTH)))))).map sortByLogId = none
  rw [log_entries_from_dicts_none _ h]
  rfl

/-- Witness for C2's amended statement: one valid and one corrupt record. -/
theorem C2_corrupt_aborts_batch_witness :
    (∃ d, d ∈ find [doc_ok, doc_missing_text] (Dict.insert [] TIMESTAMP_ID
        (Value.gt (datetime_to_long (DAY_LENGTH - 1 * DAY_LENGTH))))
      ∧ logEntry.log_entry_from_dict d = none)
    ∧ (get_log_items_as_entries [doc_ok, doc_missing_text] [] DAY_LENGTH 1).2
        = none :=
  ⟨⟨doc_missing_text, by decide, by decide⟩,
    C2_corrupt_aborts_batch [doc_ok, doc_missing_text] [] DAY_LENGTH 1
      ⟨doc_missing_text, by decide, by decide⟩⟩

/-- C2 counterexample: with a batch of one valid and one corrupt stored
mapping in range, retrieval returns nothing at all — not the valid record
with a reported error for the corrupt one. -/
theorem C2_counterexample :
    (get_log_items_as_entries [doc_ok, doc_missing_text] [] DAY_LENGTH 1).2
        = none
    ∧ (logEntry.log_entry_from_dict doc_ok).isSome = true
    ∧ logEntry.log_entry_from_dict doc_missing_text = none :=
  ⟨by decide, by decide, by decide⟩

theorem Heap.get_alloc_lt (h : Heap) (d : Dict) (a : Nat)
    (ha : a < h.dicts.length) : (h.alloc d).2.get a = h.get a := by
  simp only [Heap.alloc, Heap.get]
  rw [List.getElem?_append_left ha]

theorem Heap.get_alloc_self (h : Heap) (d : Dict) :
    (h.alloc d).2.get (h.alloc d).1 = d := by
  simp only [Heap.alloc, Heap.get]
  rw [List.getElem?_concat_length]
  rfl

theorem Heap.get_write_ne (h : Heap) (r a : Nat) (d : Dict) (hne : a ≠ r) :
    (h.write r d).get a = h.get a := by
  simp only [Heap.write, Heap.get]
  rw [List.getElem?_set_ne (fun hc => hne hc.symm)]

theorem Heap.get_write_self (h : Heap) (r : Nat) (d : Dict)
    (hr : r < h.dicts.length) : (h.write r d).get r = d := by
  simp only [Heap.write, Heap.get]
  rw [List.getElem?_set_eq_of_lt _ hr]
  rfl

theorem Heap.write_length (h : Heap) (r : Nat) (d : Dict) :
    (h.write r d).dicts.length = h.dicts.length := by
  simp [Heap.write]

theorem fold_write_get_other (n : Dict) (r a : Nat) (hne : a ≠ r) (hh : Heap) :
    (n.foldl (fun acc kv => acc.write r ((acc.get r).insert kv.1 kv.2)) hh).get a
      = hh.get a := by
  induction n generalizing hh with
  | nil => rfl
  | cons kv rest ih =>
    simp only [List.foldl_cons]
    rw [ih]
    exact Heap.get_write_ne hh r a _ hne

theorem fold_write_get_self (n : Dict) (r : Nat) (hh : Heap)
    (hr : r < hh.dicts.length) :
    (n.foldl (fun acc kv => acc.write r ((acc.get r).insert kv.1 kv.2)) hh).get r
      = n.foldl (fun acc kv => acc.insert kv.1 kv.2) (hh.get r) := by
  induction n generalizing hh with
  | nil => rfl
  | cons kv rest ih =>
    simp only [List.foldl_cons]
    rw [ih (hh.write r ((hh.get r).insert kv.1 kv.2))
      (by rw [Heap.write_length]; exact hr)]
    rw [Heap.get_write_self hh r _ hr]

theorem gual_ref_fst (h : Heap) (p : Nat) (n : Dict) :
    (get_update_attributes_list_ref h p n).1 = h.dicts.length := rfl

theorem gual_ref_get_self (h : Heap) (p : Nat) (n : Dict) :
    (get_update_attributes_list_ref h p n).2.get
        (get_update_attributes_list_ref h p n).1
      = get_update_attributes_list (h.get p) n := by
  have h1 : (get_update_attributes_list_ref h p n).2 =
      n.foldl (fun acc kv => acc.write h.dicts.length
        ((acc.get h.dicts.length).insert kv.1 kv.2)) ⟨h.dicts ++ [h.get p]⟩ := rfl
  have h2 : (get_update_attributes_list_ref h p n).1 = h.dicts.length := rfl
  rw [h1, h2]
  rw [fold_write_get_self n h.dicts.length ⟨h.dicts ++ [h.get p]⟩ (by simp)]
  have h3 : (Heap.mk (h.dicts ++ [h.get p])).get h.dicts.length = h.get p := by
    simp only [Heap.get]
    rw [List.getElem?_concat_length]
    rfl
  rw [h3]
  rfl

theorem gual_ref_get_other (h : Heap) (p : Nat) (n : Dict) (a : Nat)
    (ha : a < h.dicts.length) :
    (get_update_attributes_list_ref h p n).2.get a = h.get a := by
  have h1 : (get_update_attributes_list_ref h p n).2 =
      n.foldl (fun acc kv => acc.write h.dicts.length
        ((acc.get h.dicts.length).insert kv.1 kv.2)) ⟨h.dicts ++ [h.get p]⟩ := rfl
  rw [h1]
  rw [fold_write_get_other n h.dicts.length a (Nat.ne_of_lt ha)]
  simp only [Heap.get]
  rw [List.getElem?_append_left ha]

theorem Dict.lookup_eq_none_of_not_mem (d : Dict) (k : String)
    (hk : k ∉ d.map Prod.fst) : d.lookup k = none := by
  induction d with
  | nil => rfl
  | cons kv rest ih =>
    obtain ⟨k1, v1⟩ := kv
    simp only [List.map_cons, List.mem_cons] at hk
    push_neg at hk
    obtain ⟨hk1, hkrest⟩ := hk
    simp only [Dict.lookup]
    rw [if_neg (fun hc : k1 = k => hk1 hc.symm)]
    exact ih hkrest

theorem lookup_get_update_attributes_list (parent new : Dict) (k : String)
    (hnodup : (new.map Prod.fst).Nodup) :
    (get_update_attributes_list parent new).lookup k =
      match new.lookup k with
      | some v => some v
      | none => parent.lookup k := by
  induction new generalizing parent with
  | nil => rfl
  | cons kv rest ih =>
    obtain ⟨k0, v0⟩ := kv
    simp only [List.map_cons, List.nodup_cons] at hnodup
    obtain ⟨hk0, hrest⟩ := hnodup
    show (get_update_attributes_list (parent.insert k0 v0) rest).lookup k = _
    rw [ih (parent.insert k0 v0) hrest]
    by_cases hkk : k0 = k
    · subst hkk
      have hnone : Dict.lookup rest k0 = none :=
        Dict.lookup_eq_none_of_not_mem rest k0 hk0
      simp [Dict.lookup, hnone, Dict.lookup_insert]
    · cases hr : Dict.lookup rest k with
      | none => simp [Dict.lookup, hr, hkk, Dict.lookup_insert]
      | some v => simp [Dict.lookup, hr, hkk]

/-- C8: deriving via `setup` installs the parent's labels with the
overrides applied key-wise (last write wins) into a freshly built mapping;
the parent's mapping is unchanged afterwards and shares no address with
the child's. -/
theorem C8_setup_no_mutation (h : Heap) (lg : loggerRef) (kwargs : Dict)
    (hvalid : lg.attrRef < h.dicts.length)
    (hnodup : (kwargs.map Prod.fst).Nodup) :
    ((logger_setup_ref h lg kwargs).2.get
        (logger_setup_ref h lg kwargs).1.attrRef
      = get_update_attributes_list (h.get lg.attrRef) kwargs)
    ∧ (∀ k, ((logger_setup_ref h lg kwargs).2.get
          (logger_setup_ref h lg kwargs).1.attrRef).lookup k =
        match kwargs.lookup k with
        | some v => some v
        | none => (h.get lg.attrRef).lookup k)
    ∧ (logger_setup_ref h lg kwargs).2.get lg.attrRef = h.get lg.attrRef
    ∧ (logger_setup_ref h lg kwargs).1.attrRef ≠ lg.attrRef := by
  refine ⟨gual_ref_get_self h lg.attrRef kwargs, ?_,
    gual_ref_get_other h lg.attrRef kwargs lg.attrRef hvalid,
    (Nat.ne_of_lt hvalid).symm⟩
  intro k
  have hg : (logger_setup_ref h lg kwargs).2.get
      (logger_setup_ref h lg kwargs).1.attrRef
      = get_update_attributes_list (h.get lg.attrRef) kwargs :=
    gual_ref_get_self h lg.attrRef kwargs
  rw [hg]
  exact lookup_get_update_attributes_list (h.get lg.attrRef) kwargs k hnodup

/-- Witness for C8 on a one-dict heap. -/
theorem C8_setup_no_mutation_witness :
    ((0 : Nat) < (Heap.mk [[("type", Value.str "a")]]).dicts.length)
    ∧ (([("stage", Value.str "s")].map Prod.fst).Nodup)
    ∧ ((logger_setup_ref ⟨[[("type", Value.str "a")]]⟩ ⟨0, "off"⟩
          [("stage", Value.str "s")]).2.get
        (logger_setup_ref ⟨[[("type", Value.str "a")]]⟩ ⟨0, "off"⟩
          [("stage", Value.str "s")]).1.attrRef
      = get_update_attributes_list
          ((Heap.mk [[("type", Value.str "a")]]).get 0)
          [("stage", Value.str "s")])
    ∧ (logger_setup_ref ⟨[[("type", Value.str "a")]]⟩ ⟨0, "off"⟩
          [("stage", Value.str "s")]).2.get 0
        = (Heap.mk [[("type", Value.str "a")]]).get 0
    ∧ (logger_setup_ref ⟨[[("type", Value.str "a")]]⟩ ⟨0, "off"⟩
          [("stage", Value.str "s")]).1.attrRef ≠ 0 :=
  ⟨by decide, by decide,
    (C8_setup_no_mutation ⟨[[("type", Value.str "a")]]⟩ ⟨0, "off"⟩
      [("stage", Value.str "s")] (by decide) (by decide)).1,
    (C8_setup_no_mutation ⟨[[("type", Value.str "a")]]⟩ ⟨0, "off"⟩
      [("stage", Value.str "s")] (by decide) (by decide)).2.2.1,
    (C8_setup_no_mutation ⟨[[("type", Value.str "a")]]⟩ ⟨0, "off"⟩
      [("stage", Value.str "s")] (by decide) (by decide)).2.2.2⟩

/-- C10: construction from another logger, `setup` and the in-place
`label` operation each install a freshly allocated merged mapping — the
new reference differs from every existing address, and no existing
address's contents change — so mutating one logger via `label` never
changes the attributes observed through any other logger instance. -/
theorem C10_no_aliasing (h : Heap) (lg : loggerRef) (kwargs : Dict) (a : Nat)
    (ha : a < h.dicts.length) :
    ((logger_label_ref h lg kwargs).1.attrRef ≠ a
      ∧ (logger_label_ref h lg kwargs).2.get a = h.get a)
    ∧ ((logger_setup_ref h lg kwargs).1.attrRef ≠ a
      ∧ (logger_setup_ref h lg kwargs).2.get a = h.get a)
    ∧ (∀ (ll : String) (lg' : loggerRef) (h' : Heap),
        logger_init_from_ref h lg ll kwargs = some (lg', h') →
        lg'.attrRef ≠ a ∧ h'.get a = h.get a) := by
  refine ⟨⟨(Nat.ne_of_lt ha).symm, gual_ref_get_other h lg.attrRef kwargs a ha⟩,
    ⟨(Nat.ne_of_lt ha).symm, gual_ref_get_other h lg.attrRef kwargs a ha⟩, ?_⟩
  intro ll lg' h' hinit
  unfold logger_init_from_ref at hinit
  cases hsl : set_logging_level ll with
  | none => rw [hsl] at hinit; cases hinit
  | some lv =>
    rw [hsl] at hinit
    simp only [Option.map_some', Option.some.injEq] at hinit
    cases hinit
    exact ⟨(Nat.ne_of_lt ha).symm, gual_ref_get_other h lg.attrRef kwargs a ha⟩

/-- Witness for C10 on a one-dict heap. -/
theorem C10_no_aliasing_witness :
    ((0 : Nat) < (Heap.mk [[("type", Value.str "a")]]).dicts.length)
    ∧ ((logger_label_ref ⟨[[("type", Value.str "a")]]⟩ ⟨0, "off"⟩
          [("stage", Value.str "s")]).1.attrRef ≠ 0
      ∧ (logger_label_ref ⟨[[("type", Value.str "a")]]⟩ ⟨0, "off"⟩
          [("stage", Value.str "s")]).2.get 0
        = (Heap.mk [[("type", Value.str "a")]]).get 0)
    ∧ ((⟨1, "on"⟩ : loggerRef).attrRef ≠ 0
      ∧ (Heap.mk [[("type", Value.str "a")],
          [("type", Value.str "a"), ("stage", Value.str "s")]]).get 0
        = (Heap.mk [[("type", Value.str "a")]]).get 0) :=
  ⟨by decide,
    (C10_no_aliasing ⟨[[("type", Value.str "a")]]⟩ ⟨0, "off"⟩
      [("stage", Value.str "s")] 0 (by decide)).1,
    (C10_no_aliasing ⟨[[("type", Value.str "a")]]⟩ ⟨0, "off"⟩
      [("stage", Value.str "s")] 0 (by decide)).2.2 "on" ⟨1, "on"⟩
      ⟨[[("type", Value.str "a")],
        [("type", Value.str "a"), ("stage", Value.str "s")]]⟩ rfl⟩
